import Mathlib

/-!
Verification development for the tap-apple-search-ads authentication
pipeline (source: src/tap_apple_search_ads/__init__.py).

The repository ships only the top-level module under src/. The stage
classes (auth.ClientSecret, auth.AccessToken, auth.RequestHeaders) and
their caching wrappers (auth.cache.*) live in modules that are not part
of src/, so those are modelled from the specification (sections 3, 4.1
to 4.4 of the spec). Everything in __init__.py itself (do_sync,
load_private_key, get_or_create_cache, add_caching, sync_concrete_stream,
STREAMS) is translated directly from the source.

Timestamps are integers (Unix seconds, as produced by
int(now.timestamp()) at line 98 of the source).
-/

set_option autoImplicit false

namespace TapASA

/-- Identity claims supplied by configuration (spec section 3,
SigningIdentity). -/
structure SigningIdentity where
  client_id : String
  team_id : String
  audience : String
  key_id : String
  algorithm : String
deriving DecidableEq, Repr

/-- Modelled from the spec: SignedSecret produced by the SecretSigner
(auth.ClientSecret, a module absent from src/): token string plus
issued_at and expires_at instants (spec section 3). -/
structure SignedSecret where
  token : String
  issued_at : Int
  expires_at : Int
deriving DecidableEq, Repr

/-- Modelled from the spec: AccessToken produced by the TokenExchanger
(auth.AccessToken, absent from src/): bearer string plus an expires_at
taken from the remote response (spec section 3). -/
structure AccessTokenValue where
  token : String
  expires_at : Int
deriving DecidableEq, Repr

/-- Modelled from the spec: RequestHeaders produced by the HeaderBuilder
(auth.RequestHeaders, absent from src/): org_id plus the bearer
authorization value (spec section 3). -/
structure RequestHeadersValue where
  org_id : String
  authorization : String
deriving DecidableEq, Repr

/-- Body of a token-exchange HTTP response: either a parsable payload
carrying access_token and expires_in, or a malformed body (spec
section 4.2). -/
inductive Body where
  | tokenPayload (access_token : String) (expires_in : Int)
  | malformed (raw : String)
deriving DecidableEq, Repr

/-- An HTTP response from the token-exchange endpoint: status code and
body (spec section 6, Transport collaborator). -/
structure HttpResponse where
  status : Nat
  body : Body
deriving DecidableEq, Repr

/-- AuthExchangeError carries the HTTP status and body for diagnostics
(spec sections 4.2 and 7). -/
structure AuthError where
  status : Nat
  body : Body
deriving DecidableEq, Repr

/-- A 2xx status is a success (spec section 4.2, non-2xx fails). -/
def isSuccess (status : Nat) : Bool :=
  200 ≤ status && status ≤ 299

/-- A response on which the exchange fails: non-success status or
unparsable body (spec section 4.2). -/
def respFails (r : HttpResponse) : Bool :=
  !(isSuccess r.status) ||
    (match r.body with
     | .malformed _ => true
     | .tokenPayload _ _ => false)

/-- Modelled from the spec: the SecretSigner contract (spec section 4.1,
implemented by auth.ClientSecret which is absent from src/): given a
PrivateKey, an instant now, an expiration duration and a
SigningIdentity, produce a SignedSecret with issued_at = now and
expires_at = now + duration, whose token is a deterministic signature
over the identity claims, the instant and the key. The signature itself
is opaque; it is modelled as an injective encoding. -/
def signSecret (privateKey : String) (ident : SigningIdentity) (now d : Int) : SignedSecret :=
  { token := "sig(" ++ ident.algorithm ++ "," ++ ident.key_id ++ "," ++ ident.client_id
      ++ "," ++ ident.team_id ++ "," ++ ident.audience ++ "," ++ toString now
      ++ "," ++ toString (now + d) ++ "," ++ privateKey ++ ")"
  , issued_at := now
  , expires_at := now + d }

/-- Modelled from the spec: the TokenExchanger contract (spec
section 4.2, implemented by auth.AccessToken which is absent from
src/): exchange a SignedSecret via one network call (the transport is a
parameter); on 2xx with a parsable body, the AccessToken expiry is the
declared lifetime relative to the exchange time; on non-2xx or a
malformed body, fail with an AuthError carrying status and body. -/
def exchangeToken (transport : SignedSecret → HttpResponse) (secret : SignedSecret)
    (now : Int) : Except AuthError AccessTokenValue :=
  let resp := transport secret
  if isSuccess resp.status then
    match resp.body with
    | .tokenPayload t e => .ok { token := t, expires_at := now + e }
    | .malformed _ => .error { status := resp.status, body := resp.body }
  else .error { status := resp.status, body := resp.body }

/-- Modelled from the spec: the HeaderBuilder contract (spec
section 4.3, implemented by auth.RequestHeaders which is absent from
src/): a pure function of org_id and the AccessToken. -/
def buildHeaders (org_id : String) (tok : AccessTokenValue) : RequestHeadersValue :=
  { org_id := org_id, authorization := "Bearer " ++ tok.token }

/-- Modelled from the spec: a cache entry is live when its expires_at is
strictly later than the evaluation time (spec section 4.4, step 2:
entry.expires_at > now). -/
def isFresh (expires_at now : Int) : Bool :=
  now < expires_at

/-- A cache entry: a stage value together with its expires_at (spec
section 3, CacheEntry). -/
structure Entry (V : Type) where
  value : V
  expires_at : Int
deriving DecidableEq, Repr

/-- The durable cache, one entry at most per stage kind (spec section 3:
exactly one cache entry per stage kind, keyed by a stable identifier
per stage type). -/
structure Cache where
  secret : Option (Entry SignedSecret)
  token : Option (Entry AccessTokenValue)
  headers : Option (Entry RequestHeadersValue)
deriving DecidableEq, Repr

/-- The cache with no entries. -/
def Cache.empty : Cache := { secret := none, token := none, headers := none }

/-- Modelled from the spec: the miss path of the CachingProxy (spec
section 4.4, step 3): invoke the wrapped stage; on success persist the
value with its expires_at, overwriting any prior entry; on failure
propagate the error and leave the entry untouched. Returns the result,
the new entry for this stage kind, and the number of underlying stage
invocations (1 on this path). -/
def proxyCompute {V : Type} (entry : Option (Entry V))
    (compute : Unit → Except AuthError V) (expOf : V → Int) :
    Except AuthError V × Option (Entry V) × Nat :=
  match compute () with
  | .ok v => (.ok v, some { value := v, expires_at := expOf v }, 1)
  | .error err => (.error err, entry, 1)

/-- Modelled from the spec: one CachingProxy value computation (spec
section 4.4): look up the entry for this stage kind; if present and
live, return it without invoking the wrapped stage (invocation count
0); otherwise compute, persist and return. -/
def proxyStep {V : Type} (now : Int) (entry : Option (Entry V))
    (compute : Unit → Except AuthError V) (expOf : V → Int) :
    Except AuthError V × Option (Entry V) × Nat :=
  match entry with
  | some e =>
    if isFresh e.expires_at now then (.ok e.value, some e, 0)
    else proxyCompute entry compute expOf
  | none => proxyCompute entry compute expOf

/-- Result of evaluating the decorated pipeline: the outcome, the cache
afterwards, the number of invocations of the underlying signer and of
the underlying exchanger, and the list of evaluation instants used in
the freshness checks. -/
structure CachedRun where
  result : Except AuthError RequestHeadersValue
  cache : Cache
  signerCalls : Nat
  exchangeCalls : Nat
  nowsChecked : List Int
deriving Repr

/-- The decorated pipeline, composed exactly as do_sync line 111 of the
source composes it: rh.value(at.value(cs.value(private_key))), with
each stage wrapped by the CachingProxy of add_caching (source
lines 183-193; the wrapper behaviour is modelled from spec
section 4.4). Python evaluates arguments eagerly, so the ClientSecret
proxy runs first, then the AccessToken proxy, then the RequestHeaders
proxy; cache writes made by an earlier proxy persist even when a later
stage fails. -/
def cachedPipeline (now d : Int) (ident : SigningIdentity) (privateKey : String)
    (transport : SignedSecret → HttpResponse) (org_id : String) (c : Cache) : CachedRun :=
  let secretStep := proxyStep now c.secret
    (fun _ => .ok (signSecret privateKey ident now d)) (fun v => v.expires_at)
  match secretStep with
  | (.error e, se, sc) =>
    { result := .error e, cache := { c with secret := se }
    , signerCalls := sc, exchangeCalls := 0, nowsChecked := [now] }
  | (.ok secret, se, sc) =>
    let tokenStep := proxyStep now c.token
      (fun _ => exchangeToken transport secret now) (fun v => v.expires_at)
    match tokenStep with
    | (.error e, te, xc) =>
      { result := .error e, cache := { c with secret := se, token := te }
      , signerCalls := sc, exchangeCalls := xc, nowsChecked := [now, now] }
    | (.ok tok, te, xc) =>
      let headerStep := proxyStep now c.headers
        (fun _ => .ok (buildHeaders org_id tok)) (fun _ => tok.expires_at)
      match headerStep with
      | (hr, he, _) =>
        { result := hr, cache := { c with secret := se, token := te, headers := he }
        , signerCalls := sc, exchangeCalls := xc, nowsChecked := [now, now, now] }

/-- The undecorated pipeline: the same composition
rh.value(at.value(cs.value(private_key))) with the bare stages of
set_up_authentication (source lines 146-161; stage behaviour modelled
from spec sections 4.1-4.3), no cache consulted and no cache written. -/
def purePipeline (now d : Int) (ident : SigningIdentity) (privateKey : String)
    (transport : SignedSecret → HttpResponse) (org_id : String) :
    Except AuthError RequestHeadersValue :=
  let secret := signSecret privateKey ident now d
  match exchangeToken transport secret now with
  | .error e => .error e
  | .ok tok => .ok (buildHeaders org_id tok)

/-- The SignedSecret that the first pipeline stage (the cache-wrapped
ClientSecret of do_sync line 111) passes downstream: the cached secret
when its entry is live, the freshly signed one otherwise. -/
def firstStageSecret (now d : Int) (ident : SigningIdentity) (pk : String)
    (c : Cache) : SignedSecret :=
  match c.secret with
  | some e => if isFresh e.expires_at now then e.value else signSecret pk ident now d
  | none => signSecret pk ident now d

/-- The clock state: an infinite supply of instants and an index of the
next unread sample. Each read of the system clock consumes one sample,
so the final index counts the clock reads. -/
structure ClockState where
  times : Nat → Int
  idx : Nat

/-- One read of the system clock, translated from line 97 of the
source (datetime.datetime.now followed by int(now.timestamp()) at
line 98): returns the current instant and advances the clock state. -/
def sampleClock (st : ClockState) : Int × ClockState :=
  (st.times st.idx, { st with idx := st.idx + 1 })

/-- The configuration fields of tap_config.Authentication that do_sync
uses for the pipeline (source lines 100-111; the config class itself is
outside src/, its fields are named at lines 104-105, 150-160). -/
structure AuthConfig where
  local_caching : Bool
  expiration_time : Int
  ident : SigningIdentity
  org_id : String
deriving Repr

/-- Result of a do_sync run: the outcome (the list of
(stream name, headers) pairs passed to sync_stream, or the auth error
that aborted the run), the invocation counts of the underlying signer
and exchanger, the cache afterwards, the clock state afterwards, and
the freshness-check instants used during pipeline evaluation. -/
structure DoSyncRun where
  result : Except AuthError (List (String × RequestHeadersValue))
  signerCalls : Nat
  exchangeCalls : Nat
  cache : Cache
  clock : ClockState
  nowsChecked : List Int

/-- do_sync translated from source lines 96-125: sample the clock once,
build the pipeline (wrapped by add_caching when local_caching is set),
evaluate it once to obtain request_headers_value, then pass that one
value to sync_stream for every stream of the catalog. The undecorated
stages always invoke the signer and the exchanger exactly once. -/
def do_sync (clk : ClockState) (cfg : AuthConfig) (privateKey : String)
    (transport : SignedSecret → HttpResponse) (c : Cache)
    (streams : List String) : DoSyncRun :=
  let sampled := sampleClock clk
  let timestamp := sampled.1
  let clk1 := sampled.2
  if cfg.local_caching then
    let run := cachedPipeline timestamp cfg.expiration_time cfg.ident privateKey
      transport cfg.org_id c
    match run.result with
    | .error e =>
      { result := .error e, signerCalls := run.signerCalls
      , exchangeCalls := run.exchangeCalls, cache := run.cache
      , clock := clk1, nowsChecked := run.nowsChecked }
    | .ok hdrs =>
      { result := .ok (streams.map (fun s => (s, hdrs)))
      , signerCalls := run.signerCalls, exchangeCalls := run.exchangeCalls
      , cache := run.cache, clock := clk1, nowsChecked := run.nowsChecked }
  else
    match purePipeline timestamp cfg.expiration_time cfg.ident privateKey
      transport cfg.org_id with
    | .error e =>
      { result := .error e, signerCalls := 1, exchangeCalls := 1
      , cache := c, clock := clk1, nowsChecked := [] }
    | .ok hdrs =>
      { result := .ok (streams.map (fun s => (s, hdrs)))
      , signerCalls := 1, exchangeCalls := 1
      , cache := c, clock := clk1, nowsChecked := [] }

/-- The module-level durable cache handle: a shelve.Shelf, modelled as
the file path it was opened on together with its current entries
(key-value pairs). In Python an open Shelf with no entries is falsy
(truthiness of a Shelf falls back to its length), which matters for the
guard at line 166 of the source. -/
structure Shelf where
  path : String
  entries : List (String × String)
deriving DecidableEq, Repr

/-- The filesystem as get_or_create_cache sees it: which directories
exist, and the stored shelf contents at each file path. -/
structure FileSys where
  dirs : List String
  shelfData : String → List (String × String)

/-- Truthiness of the optional module-level cache handle, as Python
evaluates the guard if cache: a missing handle is falsy, and an open
Shelf is falsy exactly when it has no entries (Shelf defines length and
no separate boolean conversion). -/
def shelfTruthy (c : Option Shelf) : Bool :=
  match c with
  | none => false
  | some s => !s.entries.isEmpty

/-- The fall-through body of get_or_create_cache (source
lines 169-180): check that the cache directory exists, raising OSError
naming it when not (the module-level handle keeps its old value), then
open the shelf at directory/file and store it in the module-level
handle. -/
def openCacheFile (fs : FileSys) (cache : Option Shelf)
    (cache_dir cache_file : String) : Except String Shelf × Option Shelf :=
  if fs.dirs.contains cache_dir then
    let p := cache_dir ++ "/" ++ cache_file
    let s : Shelf := { path := p, entries := fs.shelfData p }
    (.ok s, some s)
  else (.error ("Cache directory [" ++ cache_dir ++ "] does not exist"), cache)

/-- get_or_create_cache translated from source lines 164-180: if the
module-level handle is truthy, return it unchanged without touching the
filesystem; otherwise fall through to the directory check and the
shelf opening. Returns the call outcome and the new module-level
handle. -/
def get_or_create_cache (fs : FileSys) (cache : Option Shelf)
    (cache_dir cache_file : String) : Except String Shelf × Option Shelf :=
  match cache with
  | some c =>
    if c.entries.isEmpty then openCacheFile fs cache cache_dir cache_file
    else (.ok c, some c)
  | none => openCacheFile fs cache cache_dir cache_file

/-- The private-key related configuration keys of the tap config
mapping: an Option field mirrors presence of the key in the mapping
(source lines 129 and 132 test membership). -/
structure KeyConfig where
  private_key_value : Option String
  private_key_file : Option String
deriving DecidableEq, Repr

/-- load_private_key translated from source lines 128-139: prefer the
inline private_key_value; otherwise read private_key_file from disk;
otherwise raise TapAppleSearchAdsException. The second component of a
successful result counts the file reads performed (0 or 1), and
readFile stands for auth.utils.read_private_key_from_file. -/
def load_private_key (readFile : String → String) (config : KeyConfig) :
    Except String (String × Nat) :=
  match config.private_key_value with
  | some v => .ok (v, 0)
  | none =>
    match config.private_key_file with
    | some f => .ok (readFile f, 1)
    | none => .error "Missing private key configuration parameters"

/-- The six known stream names (source lines 31-38). -/
def STREAMS : List String :=
  [ "campaign"
  , "campaign_flat"
  , "campaign_level_reports"
  , "campaign_level_reports_extended_spend_row"
  , "campaign_level_reports_extended_spend_row_flat"
  , "impression_share_reports" ]

/-- A value stored in a singer state bookmark. -/
inductive StateVal where
  | str (s : String)
  | num (n : Int)
deriving DecidableEq, Repr

/-- The singer state mapping, modelled as the association of
(stream name, bookmark key) to bookmark value. -/
abbrev SyncState := List ((String × String) × StateVal)

/-- singer.write_bookmark: set the bookmark value for a (stream, key)
pair, replacing any previous value. -/
def write_bookmark (st : SyncState) (stream key : String) (v : StateVal) : SyncState :=
  ((stream, key), v) :: st.filter (fun p => !(p.1 == (stream, key)))

/-- singer.get_bookmark: look up the bookmark value for a
(stream, key) pair. -/
def get_bookmark (st : SyncState) (stream key : String) : Option StateVal :=
  match st.find? (fun p => p.1 == (stream, key)) with
  | some p => some p.2
  | none => none

/-- A record returned by the impression-share-reports endpoint, reduced
to the field the state handling reads: its date string. -/
structure ImpressionRecord where
  date : String
deriving DecidableEq, Repr

/-- The maximum of a list of date strings under lexicographic order, as
the Python builtin max computes it over record dates; none on an empty
list (where max raises ValueError). -/
def maxDate : List String → Option String
  | [] => none
  | d :: ds => some (ds.foldl (fun a b => if a < b then b else a) d)

/-- sync_concrete_stream translated from source lines 227-317. The
record-fetching collaborators (campaign.sync,
campaign_level_reports.sync and variants, impression_share_reports.sync)
live outside src/ and are passed in as the lists of records they
return; record emission via singer.write_record does not touch the
state. The first five branches return the state unchanged. The
impression_share_reports branch computes the maximum record date
(raising ValueError on an empty record list, as the Python max builtin
does) and writes the date and latestRecordCount bookmarks. Any other
name raises TapAppleSearchAdsException naming the stream. -/
def sync_concrete_stream (state : SyncState) (stream_name : String)
    (impressionRecords : List ImpressionRecord) : Except String SyncState :=
  if stream_name == "campaign" then .ok state
  else if stream_name == "campaign_flat" then .ok state
  else if stream_name == "campaign_level_reports" then .ok state
  else if stream_name == "campaign_level_reports_extended_spend_row" then .ok state
  else if stream_name == "campaign_level_reports_extended_spend_row_flat" then .ok state
  else if stream_name == "impression_share_reports" then
    match maxDate (impressionRecords.map (fun r => r.date)) with
    | none => .error "ValueError: max() arg is an empty sequence"
    | some maxReportDate =>
      let st1 := write_bookmark state stream_name "date" (.str maxReportDate)
      let st2 := write_bookmark st1 stream_name "latestRecordCount"
        (.num (Int.ofNat impressionRecords.length))
      .ok st2
  else .error ("Unknown stream: [" ++ stream_name ++ "]")

/-- A concrete signing identity used in concrete evaluations (the
scenario of spec section 8). -/
def exIdent : SigningIdentity :=
  { client_id := "c1", team_id := "t1", audience := "a1"
  , key_id := "k1", algorithm := "ES256" }

/-- A concrete transport stub that always answers 200 with the payload
of the spec section 8 scenario. -/
def exTransport : SignedSecret → HttpResponse :=
  fun _ => { status := 200, body := .tokenPayload "abc" 3600 }

/-- A concrete transport stub that always answers HTTP 401. -/
def exTransport401 : SignedSecret → HttpResponse :=
  fun _ => { status := 401, body := .malformed "unauthorized" }

/-- A concrete clock whose every sample is instant 0. -/
def exClock : ClockState := { times := fun _ => 0, idx := 0 }

/-- A concrete configuration with caching disabled. -/
def exConfigPlain : AuthConfig :=
  { local_caching := false, expiration_time := 1200, ident := exIdent
  , org_id := "org1" }

/-- A concrete configuration with caching enabled. -/
def exConfigCaching : AuthConfig :=
  { local_caching := true, expiration_time := 1200, ident := exIdent
  , org_id := "org1" }

deriving instance DecidableEq for Except

/-- A concrete transport stub whose minted bearer token depends on the
presented secret, as a real token endpoint may: it echoes the signed
assertion inside the access token. -/
def exTransportEcho : SignedSecret → HttpResponse :=
  fun s => { status := 200, body := .tokenPayload ("tok-" ++ s.token) 3600 }

/-- The SignedSecret the same pipeline produced in an earlier run, at
instant -100 with expiration 1200: it expires at 1100, so it is still
live at instant 0. -/
def oldRunSecret : SignedSecret := signSecret "pk" exIdent (-100) 1200

/-- The AccessToken the same pipeline obtained in that earlier run by
exchanging oldRunSecret at instant -100 against exTransportEcho: it
expires at -100 + 3600 = 3500, so it is still live at instant 0. -/
def oldRunToken : AccessTokenValue :=
  { token := "tok-" ++ oldRunSecret.token, expires_at := 3500 }

/-- The durable cache as that earlier run left it: the ClientSecret and
AccessToken entries it persisted, both still unexpired at instant 0. -/
def oldRunCache : Cache :=
  { secret := some { value := oldRunSecret, expires_at := oldRunSecret.expires_at }
  , token := some { value := oldRunToken, expires_at := oldRunToken.expires_at }
  , headers := none }

/-- A live cache entry makes the proxy return the cached value without
invoking the wrapped stage. -/
theorem proxyStep_hit {V : Type} (now : Int) (e : Entry V)
    (compute : Unit → Except AuthError V) (expOf : V → Int)
    (h : isFresh e.expires_at now = true) :
    proxyStep now (some e) compute expOf = (.ok e.value, some e, 0) := by
  simp [proxyStep, h]

/-- A missing or stale entry sends the proxy to the miss path. -/
theorem proxyStep_miss {V : Type} (now : Int) (entry : Option (Entry V))
    (compute : Unit → Except AuthError V) (expOf : V → Int)
    (h : ∀ e, entry = some e → isFresh e.expires_at now = false) :
    proxyStep now entry compute expOf = proxyCompute entry compute expOf := by
  cases entry with
  | none => rfl
  | some e => simp [proxyStep, h e rfl]

/-- A proxy whose wrapped stage always succeeds yields a successful
result; the underlying stage runs at most once. -/
theorem proxyStep_ok_total {V : Type} (now : Int) (entry : Option (Entry V))
    (v : V) (expOf : V → Int) :
    ∃ w en n, proxyStep now entry (fun _ => Except.ok v) expOf = (.ok w, en, n) := by
  cases entry with
  | none => exact ⟨v, some { value := v, expires_at := expOf v }, 1, rfl⟩
  | some e =>
    by_cases hf : isFresh e.expires_at now
    · exact ⟨e.value, some e, 0, by simp [proxyStep, hf]⟩
    · exact ⟨v, some { value := v, expires_at := expOf v }, 1,
        by simp [proxyStep, proxyCompute, hf]⟩

/-- A proxy invokes its wrapped stage at most once per value request. -/
theorem proxyStep_calls_le_one {V : Type} (now : Int) (entry : Option (Entry V))
    (compute : Unit → Except AuthError V) (expOf : V → Int) :
    (proxyStep now entry compute expOf).2.2 ≤ 1 := by
  cases entry with
  | none =>
    unfold proxyStep proxyCompute
    cases compute () <;> simp
  | some e =>
    unfold proxyStep proxyCompute
    by_cases hf : isFresh e.expires_at now
    · simp [hf]
    · simp only [hf]
      cases compute () <;> simp

/-- Claim C3: for every configuration mapping, if it contains
private_key_value then load_private_key returns that inline value and
reads no file; otherwise, if it contains private_key_file, the key is
read from that file path; otherwise load_private_key raises a
TapAppleSearchAdsException and the run aborts. -/
theorem C3_load_private_key (readFile : String → String) (config : KeyConfig) :
    (∀ v, config.private_key_value = some v →
      load_private_key readFile config = .ok (v, 0)) ∧
    (config.private_key_value = none →
      ∀ f, config.private_key_file = some f →
        load_private_key readFile config = .ok (readFile f, 1)) ∧
    (config.private_key_value = none → config.private_key_file = none →
      load_private_key readFile config =
        .error "Missing private key configuration parameters") := by
  refine ⟨?_, ?_, ?_⟩ <;> intros <;> simp [load_private_key, *]

/-- Witness for C3 at a concrete configuration holding an inline key. -/
theorem C3_load_private_key_witness :
    load_private_key (fun _ => "fileKey")
      { private_key_value := some "inlineKey", private_key_file := none } =
      .ok ("inlineKey", 0) :=
  (C3_load_private_key (fun _ => "fileKey")
    { private_key_value := some "inlineKey", private_key_file := none }).1
    "inlineKey" rfl

/-- Claim C7: for every evaluation instant now and expiration duration
d, the SignedSecret produced by the signer has issued_at = now and
expires_at = now + d, and it is treated as stale (not fresh, so the
caching layer regenerates it) at any evaluation instant at or after
that expires_at. -/
theorem C7_signed_secret (privateKey : String) (ident : SigningIdentity)
    (now d t : Int) :
    (signSecret privateKey ident now d).issued_at = now ∧
    (signSecret privateKey ident now d).expires_at = now + d ∧
    (now + d ≤ t →
      isFresh (signSecret privateKey ident now d).expires_at t = false) := by
  refine ⟨rfl, rfl, fun h => ?_⟩
  simp only [signSecret, isFresh, decide_eq_false_iff_not, not_lt]
  exact h

/-- Witness for C7: at now = 10, d = 5, the secret signed for 10 is
stale at instant 15. -/
theorem C7_signed_secret_witness :
    isFresh (signSecret "pk" exIdent 10 5).expires_at 15 = false :=
  (C7_signed_secret "pk" exIdent 10 5 15).2.2 (by decide)

/-- Claim C2: on first use (no open module-level handle), when the
configured cache directory does not exist, get_or_create_cache raises
OSError naming the directory, no shelf is opened, and the module-level
handle is unchanged; the absence is never silently ignored. -/
theorem C2_cache_dir_missing (fs : FileSys) (st : Option Shelf)
    (dir file : String) (hFirst : shelfTruthy st = false)
    (hDir : fs.dirs.contains dir = false) :
    get_or_create_cache fs st dir file =
      (.error ("Cache directory [" ++ dir ++ "] does not exist"), st) := by
  have hmem : dir ∉ fs.dirs := by simpa using hDir
  cases st with
  | none => simp [get_or_create_cache, openCacheFile, hmem]
  | some c =>
    simp only [shelfTruthy, Bool.not_eq_false'] at hFirst
    simp [get_or_create_cache, openCacheFile, hmem, hFirst]

/-- Witness for C2 at a concrete filesystem with no directories. -/
theorem C2_cache_dir_missing_witness :
    get_or_create_cache { dirs := [], shelfData := fun _ => [] } none "tmp" "auth" =
      (.error "Cache directory [tmp] does not exist", none) :=
  C2_cache_dir_missing { dirs := [], shelfData := fun _ => [] } none "tmp" "auth"
    rfl rfl

/-- Counterexample for C10 as stated: a first successful call opens an
empty shelf and stores it in the module-level handle, yet the next call
with the same arguments does not return that handle: because an empty
Shelf is falsy in the guard, the call re-checks the directory (which
has meanwhile disappeared) and raises instead. -/
theorem C10_counterexample :
    (get_or_create_cache { dirs := ["tmp"], shelfData := fun _ => [] }
        none "tmp" "auth" =
      (.ok { path := "tmp/auth", entries := [] },
       some { path := "tmp/auth", entries := [] })) ∧
    (get_or_create_cache { dirs := [], shelfData := fun _ => [] }
        (some { path := "tmp/auth", entries := [] }) "tmp" "auth").1 =
      .error "Cache directory [tmp] does not exist" := by
  constructor <;> rfl

/-- Claim C10 as amended: once the module-level handle holds an open
cache with at least one entry (a truthy Shelf), every subsequent call
returns that identical object and leaves it in place, without checking
directory existence or re-opening, whatever the filesystem and the
cache_dir and cache_file arguments; when the held shelf is empty the
guard is falsy and the call re-checks the directory and re-opens. -/
theorem C10_handle_reused (fs : FileSys) (c : Shelf) (dir file : String)
    (h : c.entries ≠ []) :
    get_or_create_cache fs (some c) dir file = (.ok c, some c) := by
  simp [get_or_create_cache, h]

/-- Witness for C10 as amended: a non-empty handle is returned as is
even though the filesystem has no directories at all and the arguments
name a different location. -/
theorem C10_handle_reused_witness :
    get_or_create_cache { dirs := [], shelfData := fun _ => [] }
      (some { path := "old/auth", entries := [("accessToken", "tok")] })
      "elsewhere" "other" =
      (.ok { path := "old/auth", entries := [("accessToken", "tok")] },
       some { path := "old/auth", entries := [("accessToken", "tok")] }) :=
  C10_handle_reused { dirs := [], shelfData := fun _ => [] }
    { path := "old/auth", entries := [("accessToken", "tok")] }
    "elsewhere" "other" (by simp)

/-- Claim C9: for every stream name that is not one of the six known
names, sync_concrete_stream raises a TapAppleSearchAdsException naming
the unknown stream; a state mapping is returned only for known-name
calls, and it is returned unchanged on every known stream other than
impression_share_reports. -/
theorem C9_unknown_stream (state : SyncState) (name : String)
    (impressionRecords : List ImpressionRecord) :
    (name ∉ STREAMS →
      sync_concrete_stream state name impressionRecords =
        .error ("Unknown stream: [" ++ name ++ "]")) ∧
    (∀ st2, sync_concrete_stream state name impressionRecords = .ok st2 →
      name ∈ STREAMS) ∧
    (name ∈ STREAMS → name ≠ "impression_share_reports" →
      sync_concrete_stream state name impressionRecords = .ok state) := by
  by_cases h1 : name = "campaign"
  · subst h1; refine ⟨fun hn => absurd (by simp [STREAMS]) hn, ?_, ?_⟩ <;>
      simp [sync_concrete_stream, STREAMS]
  by_cases h2 : name = "campaign_flat"
  · subst h2; refine ⟨fun hn => absurd (by simp [STREAMS]) hn, ?_, ?_⟩ <;>
      simp [sync_concrete_stream, STREAMS]
  by_cases h3 : name = "campaign_level_reports"
  · subst h3; refine ⟨fun hn => absurd (by simp [STREAMS]) hn, ?_, ?_⟩ <;>
      simp [sync_concrete_stream, STREAMS]
  by_cases h4 : name = "campaign_level_reports_extended_spend_row"
  · subst h4; refine ⟨fun hn => absurd (by simp [STREAMS]) hn, ?_, ?_⟩ <;>
      simp [sync_concrete_stream, STREAMS]
  by_cases h5 : name = "campaign_level_reports_extended_spend_row_flat"
  · subst h5; refine ⟨fun hn => absurd (by simp [STREAMS]) hn, ?_, ?_⟩ <;>
      simp [sync_concrete_stream, STREAMS]
  by_cases h6 : name = "impression_share_reports"
  · subst h6
    refine ⟨fun hn => absurd (by simp [STREAMS]) hn, ?_, fun _ hne => absurd rfl hne⟩
    intro st2 _
    simp [STREAMS]
  · refine ⟨fun _ => ?_, ?_, fun hmem => ?_⟩
    · simp [sync_concrete_stream, h1, h2, h3, h4, h5, h6]
    · intro st2 hok
      simp [sync_concrete_stream, h1, h2, h3, h4, h5, h6] at hok
    · exact absurd (by simpa [STREAMS] using hmem)
        (by simp [h1, h2, h3, h4, h5, h6])

/-- Witness for C9: the unknown name nope raises the naming exception,
and the known name campaign returns the state unchanged. -/
theorem C9_unknown_stream_witness :
    (sync_concrete_stream [] "nope" [] = .error "Unknown stream: [nope]") ∧
    (sync_concrete_stream [] "campaign" [] = .ok []) :=
  ⟨(C9_unknown_stream [] "nope" []).1 (by decide),
   (C9_unknown_stream [] "campaign" []).2.2 (by decide) (by decide)⟩

/-- Counterexample for C1 as stated: the cache holds a live AccessToken
entry (fresh at evaluation time 0) and no ClientSecret entry, yet the
signer is invoked once: do_sync line 111 evaluates
cs.value(private_key) eagerly before at.value even consults the
AccessToken cache. -/
theorem C1_counterexample :
    isFresh (3600 : Int) 0 = true ∧
    (cachedPipeline 0 1200 exIdent "pk" exTransport "org1"
      { secret := none
      , token := some { value := { token := "cached", expires_at := 3600 }
                      , expires_at := 3600 }
      , headers := none }).signerCalls ≠ 0 := by
  constructor
  · decide
  · intro h
    exact Nat.one_ne_zero ((rfl :
      (cachedPipeline 0 1200 exIdent "pk" exTransport "org1"
        { secret := none
        , token := some { value := { token := "cached", expires_at := 3600 }
                        , expires_at := 3600 }
        , headers := none }).signerCalls = 1).symm.trans h)

/-- Claim C1 as amended: when the cache holds a live AccessToken entry,
the token exchanger is never invoked, and the run yields the cached
token headers (built from the cached token, or taken from a live
cached RequestHeaders entry when one exists); the signer is skipped
only when the ClientSecret cache entry is also live, since the
composition at do_sync line 111 evaluates the ClientSecret stage
eagerly. -/
theorem C1_token_cache_hit (now d : Int) (ident : SigningIdentity)
    (pk : String) (transport : SignedSecret → HttpResponse) (org : String)
    (c : Cache) (e : Entry AccessTokenValue) (hTok : c.token = some e)
    (hFresh : isFresh e.expires_at now = true) :
    (cachedPipeline now d ident pk transport org c).exchangeCalls = 0 ∧
    ((∀ eh, c.headers = some eh → isFresh eh.expires_at now = false) →
      (cachedPipeline now d ident pk transport org c).result =
        .ok (buildHeaders org e.value)) ∧
    (∀ eh, c.headers = some eh → isFresh eh.expires_at now = true →
      (cachedPipeline now d ident pk transport org c).result = .ok eh.value) ∧
    (∀ es, c.secret = some es → isFresh es.expires_at now = true →
      (cachedPipeline now d ident pk transport org c).signerCalls = 0) := by
  obtain ⟨s, se, sc, hs⟩ :=
    proxyStep_ok_total now c.secret (signSecret pk ident now d)
      (fun v => v.expires_at)
  have hrun : cachedPipeline now d ident pk transport org c =
      (match proxyStep now c.headers (fun _ => .ok (buildHeaders org e.value))
          (fun _ => e.value.expires_at) with
       | (hr, he, _) =>
         { result := hr
         , cache := { c with secret := se, token := some e, headers := he }
         , signerCalls := sc, exchangeCalls := 0
         , nowsChecked := [now, now, now] }) := by
    unfold cachedPipeline
    rw [hs, hTok]
    dsimp only
    rw [proxyStep_hit now e _ _ hFresh]
  refine ⟨?_, ?_, ?_, ?_⟩
  · rw [hrun]
  · intro hMiss
    rw [hrun, proxyStep_miss now c.headers _ _ hMiss]
    cases c.headers <;> rfl
  · intro eh hhdr hfr
    rw [hrun, hhdr, proxyStep_hit now eh _ _ hfr]
  · intro es hsec hfr
    have : proxyStep now c.secret
        (fun _ => Except.ok (signSecret pk ident now d))
        (fun v => v.expires_at) = (.ok es.value, some es, 0) := by
      rw [hsec]; exact proxyStep_hit now es _ _ hfr
    rw [this] at hs
    rw [hrun]
    rcases hh : proxyStep now c.headers
      (fun _ => Except.ok (buildHeaders org e.value))
      (fun _ => e.value.expires_at) with ⟨hr, he, hn⟩
    have hsc : sc = 0 := by
      have := hs
      injection this with h1 h2
      injection h2 with h3 h4
      exact h4.symm
    simp [hsc]

/-- Witness for C1 as amended: with both a live ClientSecret entry and
a live AccessToken entry in the cache, neither the signer nor the
exchanger runs and the cached token headers come back. -/
theorem C1_token_cache_hit_witness :
    (cachedPipeline 0 1200 exIdent "pk" exTransport401 "org1"
      { secret := some { value := { token := "sig", issued_at := -100
                                  , expires_at := 1100 }
                       , expires_at := 1100 }
      , token := some { value := { token := "cached", expires_at := 3600 }
                      , expires_at := 3600 }
      , headers := none }).exchangeCalls = 0 ∧
    (cachedPipeline 0 1200 exIdent "pk" exTransport401 "org1"
      { secret := some { value := { token := "sig", issued_at := -100
                                  , expires_at := 1100 }
                       , expires_at := 1100 }
      , token := some { value := { token := "cached", expires_at := 3600 }
                      , expires_at := 3600 }
      , headers := none }).result =
      .ok (buildHeaders "org1" { token := "cached", expires_at := 3600 }) ∧
    (cachedPipeline 0 1200 exIdent "pk" exTransport401 "org1"
      { secret := some { value := { token := "sig", issued_at := -100
                                  , expires_at := 1100 }
                       , expires_at := 1100 }
      , token := some { value := { token := "cached", expires_at := 3600 }
                      , expires_at := 3600 }
      , headers := none }).signerCalls = 0 := by
  have h := C1_token_cache_hit 0 1200 exIdent "pk" exTransport401 "org1"
    { secret := some { value := { token := "sig", issued_at := -100
                                , expires_at := 1100 }
                     , expires_at := 1100 }
    , token := some { value := { token := "cached", expires_at := 3600 }
                    , expires_at := 3600 }
    , headers := none }
    { value := { token := "cached", expires_at := 3600 }, expires_at := 3600 }
    rfl (by decide)
  exact ⟨h.1, h.2.1 (by intro eh heh; cases heh),
    h.2.2.2 { value := { token := "sig", issued_at := -100, expires_at := 1100 }
            , expires_at := 1100 } rfl (by decide)⟩

/-- On a failing response (non-2xx status or malformed body), the
exchange yields an AuthError carrying exactly the response status and
body. -/
theorem exchangeToken_error (transport : SignedSecret → HttpResponse)
    (s : SignedSecret) (now : Int) (h : respFails (transport s) = true) :
    exchangeToken transport s now =
      .error { status := (transport s).status, body := (transport s).body } := by
  unfold exchangeToken
  unfold respFails at h
  rcases htr : transport s with ⟨status, body⟩
  rw [htr] at h
  by_cases hst : isSuccess status = true
  · cases body with
    | tokenPayload t e => simp [hst] at h
    | malformed raw => simp [hst]
  · simp only [Bool.not_eq_true] at hst
    simp [hst]

/-- The first pipeline stage always succeeds and hands
firstStageSecret downstream. -/
theorem proxyStep_secret_eq (now d : Int) (ident : SigningIdentity)
    (pk : String) (c : Cache) :
    (proxyStep now c.secret (fun _ => Except.ok (signSecret pk ident now d))
        (fun v => v.expires_at)).1 =
      Except.ok (firstStageSecret now d ident pk c) := by
  cases hc : c.secret with
  | none => simp [proxyStep, proxyCompute, firstStageSecret, hc]
  | some e =>
    by_cases hf : isFresh e.expires_at now
    · simp [proxyStep, firstStageSecret, hc, hf]
    · simp [proxyStep, proxyCompute, firstStageSecret, hc, hf]

/-- Counterexample for C8 as stated: starting from an empty cache, a
401 exchange response does surface as an AuthError carrying the status
and body, but the failed run does write a cache entry: the ClientSecret
proxy has already persisted the freshly signed secret before the
exchange was attempted. -/
theorem C8_counterexample :
    (cachedPipeline 0 1200 exIdent "pk" exTransport401 "org1" Cache.empty).result =
      .error { status := 401, body := .malformed "unauthorized" } ∧
    (cachedPipeline 0 1200 exIdent "pk" exTransport401 "org1" Cache.empty).cache.secret ≠
      none := by
  constructor
  · rfl
  · intro h
    rw [show (cachedPipeline 0 1200 exIdent "pk" exTransport401 "org1"
        Cache.empty).cache.secret =
      some { value := signSecret "pk" exIdent 0 1200, expires_at := 1200 }
      from rfl] at h
    cases h

/-- Claim C8 as amended: whenever the exchange is actually performed
(the AccessToken cache entry is missing or stale) and every response of
the transport fails (non-2xx status or unparsable body), the pipeline
raises an AuthError carrying the response status and body, and neither
an AccessToken nor a RequestHeaders cache entry is written; only the
ClientSecret entry may have been written, because the eagerly evaluated
first stage persisted its fresh secret before the exchange ran. -/
theorem C8_exchange_failure (now d : Int) (ident : SigningIdentity)
    (pk : String) (transport : SignedSecret → HttpResponse) (org : String)
    (c : Cache)
    (hMiss : ∀ e, c.token = some e → isFresh e.expires_at now = false)
    (hBad : ∀ s, respFails (transport s) = true) :
    (cachedPipeline now d ident pk transport org c).result =
      .error { status := (transport (firstStageSecret now d ident pk c)).status
             , body := (transport (firstStageSecret now d ident pk c)).body } ∧
    (cachedPipeline now d ident pk transport org c).cache.token = c.token ∧
    (cachedPipeline now d ident pk transport org c).cache.headers = c.headers := by
  obtain ⟨s, se, sc, hs⟩ :=
    proxyStep_ok_total now c.secret (signSecret pk ident now d)
      (fun v => v.expires_at)
  have hsv : s = firstStageSecret now d ident pk c := by
    have := proxyStep_secret_eq now d ident pk c
    rw [hs] at this
    exact (Except.ok.injEq _ _).mp this
  have hexch : exchangeToken transport s now =
      .error { status := (transport s).status, body := (transport s).body } :=
    exchangeToken_error transport s now (hBad s)
  have htok : proxyStep now c.token (fun _ => exchangeToken transport s now)
      (fun v => v.expires_at) =
      (.error { status := (transport s).status, body := (transport s).body }
      , c.token, 1) := by
    rw [proxyStep_miss now c.token _ _ hMiss]
    unfold proxyCompute
    rw [hexch]
  have hrun : cachedPipeline now d ident pk transport org c =
      { result := .error { status := (transport s).status
                         , body := (transport s).body }
      , cache := { c with secret := se, token := c.token }
      , signerCalls := sc, exchangeCalls := 1
      , nowsChecked := [now, now] } := by
    unfold cachedPipeline
    rw [hs]
    dsimp only
    rw [htok]
  rw [hrun, hsv]
  exact ⟨rfl, rfl, rfl⟩

/-- Witness for C8 as amended at an empty cache and the 401 transport
stub. -/
theorem C8_exchange_failure_witness :
    (cachedPipeline 0 1200 exIdent "pk" exTransport401 "org1" Cache.empty).result =
      .error { status := 401, body := .malformed "unauthorized" } ∧
    (cachedPipeline 0 1200 exIdent "pk" exTransport401 "org1"
      Cache.empty).cache.token = Cache.empty.token ∧
    (cachedPipeline 0 1200 exIdent "pk" exTransport401 "org1"
      Cache.empty).cache.headers = Cache.empty.headers :=
  C8_exchange_failure 0 1200 exIdent "pk" exTransport401 "org1" Cache.empty
    (by intro e he; cases he) (fun s => rfl)

/-- One pipeline evaluation performs at most one token-exchange
invocation. -/
theorem cachedPipeline_exchange_le_one (now d : Int) (ident : SigningIdentity)
    (pk : String) (transport : SignedSecret → HttpResponse) (org : String)
    (c : Cache) :
    (cachedPipeline now d ident pk transport org c).exchangeCalls ≤ 1 := by
  obtain ⟨s, se, sc, hs⟩ :=
    proxyStep_ok_total now c.secret (signSecret pk ident now d)
      (fun v => v.expires_at)
  have hle := proxyStep_calls_le_one now c.token
    (fun _ => exchangeToken transport s now) (fun v => v.expires_at)
  unfold cachedPipeline
  rw [hs]
  dsimp only
  rcases htok : proxyStep now c.token (fun _ => exchangeToken transport s now)
    (fun v => v.expires_at) with ⟨tr, te, tn⟩
  rw [htok] at hle
  cases tr with
  | error err => simpa using hle
  | ok tok => simpa using hle

/-- Every freshness check of one pipeline evaluation uses the single
evaluation instant the pipeline was given. -/
theorem cachedPipeline_nows (now d : Int) (ident : SigningIdentity)
    (pk : String) (transport : SignedSecret → HttpResponse) (org : String)
    (c : Cache) :
    ∀ t ∈ (cachedPipeline now d ident pk transport org c).nowsChecked, t = now := by
  obtain ⟨s, se, sc, hs⟩ :=
    proxyStep_ok_total now c.secret (signSecret pk ident now d)
      (fun v => v.expires_at)
  intro t ht
  unfold cachedPipeline at ht
  rw [hs] at ht
  dsimp only at ht
  rcases htok : proxyStep now c.token (fun _ => exchangeToken transport s now)
    (fun v => v.expires_at) with ⟨tr, te, tn⟩
  rw [htok] at ht
  cases tr with
  | error err => simp at ht; exact ht
  | ok tok => simp at ht; exact ht

/-- Claim C4: the final RequestHeaders value is computed once, before
any stream is processed, and that one value is what sync_stream
receives for every stream of the catalog; at most one token-exchange
invocation occurs in the run. -/
theorem C4_headers_once_per_run (clk : ClockState) (cfg : AuthConfig)
    (pk : String) (transport : SignedSecret → HttpResponse) (c : Cache)
    (streams : List String) :
    (∀ pairs, (do_sync clk cfg pk transport c streams).result = .ok pairs →
      ∃ hv, pairs = streams.map (fun s => (s, hv))) ∧
    (do_sync clk cfg pk transport c streams).exchangeCalls ≤ 1 := by
  constructor
  · intro pairs h
    unfold do_sync sampleClock at h
    dsimp only at h
    revert h
    split
    · split <;> intro h
      · simp at h
      · simp only [DoSyncRun.mk.injEq] at h
        exact ⟨_, ((Except.ok.injEq _ _).mp h).symm⟩
    · split <;> intro h
      · simp at h
      · exact ⟨_, ((Except.ok.injEq _ _).mp h).symm⟩
  · unfold do_sync sampleClock
    dsimp only
    split
    · split <;>
        exact cachedPipeline_exchange_le_one (clk.times clk.idx)
          cfg.expiration_time cfg.ident pk transport cfg.org_id c
    · split <;> exact Nat.le_refl 1

/-- Witness for C4: a concrete two-stream run with caching disabled
passes the same computed headers to both streams and performs one
exchange. -/
theorem C4_headers_once_per_run_witness :
    (∃ hv, ([("campaign", { org_id := "org1", authorization := "Bearer abc" })
           , ("campaign_flat", { org_id := "org1", authorization := "Bearer abc" })]
        : List (String × RequestHeadersValue)) =
      ["campaign", "campaign_flat"].map (fun s => (s, hv))) ∧
    (do_sync exClock exConfigPlain "pk" exTransport Cache.empty
      ["campaign", "campaign_flat"]).exchangeCalls ≤ 1 :=
  ⟨(C4_headers_once_per_run exClock exConfigPlain "pk" exTransport Cache.empty
      ["campaign", "campaign_flat"]).1
      [("campaign", { org_id := "org1", authorization := "Bearer abc" })
      , ("campaign_flat", { org_id := "org1", authorization := "Bearer abc" })]
      rfl,
   (C4_headers_once_per_run exClock exConfigPlain "pk" exTransport Cache.empty
      ["campaign", "campaign_flat"]).2⟩

/-- Claim C6: a run reads the system clock exactly once, before the
pipeline is constructed, and every freshness check of the evaluation
uses that single sampled instant. -/
theorem C6_single_clock_sample (clk : ClockState) (cfg : AuthConfig)
    (pk : String) (transport : SignedSecret → HttpResponse) (c : Cache)
    (streams : List String) :
    (do_sync clk cfg pk transport c streams).clock.idx = clk.idx + 1 ∧
    ∀ t ∈ (do_sync clk cfg pk transport c streams).nowsChecked,
      t = clk.times clk.idx := by
  constructor
  · unfold do_sync sampleClock
    dsimp only
    split
    · split <;> rfl
    · split <;> rfl
  · intro t ht
    unfold do_sync sampleClock at ht
    dsimp only at ht
    revert ht
    split
    · split <;> intro ht <;>
        exact cachedPipeline_nows (clk.times clk.idx) cfg.expiration_time
          cfg.ident pk transport cfg.org_id c t ht
    · split <;> intro ht <;> simp at ht

/-- Witness for C6: a concrete caching run advances the clock index
from 0 to 1, and instant 0 is the sampled clock value. -/
theorem C6_single_clock_sample_witness :
    (do_sync exClock exConfigCaching "pk" exTransport Cache.empty
      ["campaign"]).clock.idx = exClock.idx + 1 ∧
    (0 : Int) = exClock.times exClock.idx :=
  ⟨(C6_single_clock_sample exClock exConfigCaching "pk" exTransport Cache.empty
      ["campaign"]).1,
   (C6_single_clock_sample exClock exConfigCaching "pk" exTransport Cache.empty
      ["campaign"]).2 0 (by decide)⟩

/-- Counterexample for C5 as stated: a cache holding exactly the
values the same pipeline produced in an earlier run at instant -100
(the persisted secret and the token its exchange returned, evidenced by
the third conjunct), both entries still unexpired at the evaluation
instant 0, makes the decorated and undecorated pipelines disagree: the
decorated run serves the old cached bearer, the undecorated run mints a
fresh one, because the freshly signed secret embeds the new instant and
the minted token depends on the presented secret. -/
theorem C5_counterexample :
    isFresh oldRunSecret.expires_at 0 = true ∧
    isFresh oldRunToken.expires_at 0 = true ∧
    exchangeToken exTransportEcho oldRunSecret (-100) = .ok oldRunToken ∧
    (cachedPipeline 0 1200 exIdent "pk" exTransportEcho "org1" oldRunCache).result ≠
      purePipeline 0 1200 exIdent "pk" exTransportEcho "org1" := by
  refine ⟨by decide, by decide, rfl, by decide⟩

/-- Claim C5 as amended: the decorated pipeline (stages wrapped by
add_caching) and the undecorated pipeline produce the same final
RequestHeaders value for any cache whose entries are live and agree
with what the same pipeline produces at the current evaluation instant
(each present ClientSecret entry is the secret the signer produces now,
each AccessToken entry is what the exchange of that secret returns,
each RequestHeaders entry is built from that token); under that
same-instant consistency the wrappers change only how many signing and
network calls happen, never the resulting value. Live entries carried
over from an earlier instant may instead yield different (still valid)
header values, as the counterexample shows. -/
theorem C5_caching_transparent (now d : Int) (ident : SigningIdentity)
    (pk : String) (transport : SignedSecret → HttpResponse) (org : String)
    (c : Cache)
    (hsec : ∀ e, c.secret = some e → isFresh e.expires_at now = true ∧
      e.value = signSecret pk ident now d)
    (htokc : ∀ e, c.token = some e → isFresh e.expires_at now = true ∧
      exchangeToken transport (signSecret pk ident now d) now = .ok e.value)
    (hhdr : ∀ e, c.headers = some e → isFresh e.expires_at now = true ∧
      ∃ tok, exchangeToken transport (signSecret pk ident now d) now = .ok tok ∧
        e.value = buildHeaders org tok) :
    (cachedPipeline now d ident pk transport org c).result =
      purePipeline now d ident pk transport org := by
  obtain ⟨s, se, sc, hstep⟩ :=
    proxyStep_ok_total now c.secret (signSecret pk ident now d)
      (fun v => v.expires_at)
  have hfs : firstStageSecret now d ident pk c = signSecret pk ident now d := by
    unfold firstStageSecret
    cases hc : c.secret with
    | none => rfl
    | some e =>
      rcases hsec e hc with ⟨hf, hv⟩
      simp [hf, hv]
  have hsv : s = signSecret pk ident now d := by
    have := proxyStep_secret_eq now d ident pk c
    rw [hstep] at this
    exact ((Except.ok.injEq _ _).mp this).trans hfs
  unfold cachedPipeline purePipeline
  rw [hstep]
  dsimp only
  rw [hsv]
  cases hct : c.token with
  | some e =>
    rcases htokc e hct with ⟨hf, hex⟩
    rw [proxyStep_hit now e _ _ hf, hex]
    dsimp only
    cases hch : c.headers with
    | none =>
      rw [proxyStep_miss now (none : Option (Entry RequestHeadersValue)) _ _
        (by intro x hx; cases hx)]
      rfl
    | some eh =>
      rcases hhdr eh hch with ⟨hfh, tok0, hex0, hval⟩
      rw [proxyStep_hit now eh _ _ hfh]
      have : tok0 = e.value := (Except.ok.injEq _ _).mp (hex0.symm.trans hex)
      rw [hval, this]
  | none =>
    rw [proxyStep_miss now (none : Option (Entry AccessTokenValue)) _ _
      (by intro x hx; cases hx)]
    unfold proxyCompute
    cases hex : exchangeToken transport (signSecret pk ident now d) now with
    | error err => rfl
    | ok tok =>
      dsimp only
      cases hch : c.headers with
      | none =>
        rw [proxyStep_miss now (none : Option (Entry RequestHeadersValue)) _ _
          (by intro x hx; cases hx)]
        rfl
      | some eh =>
        rcases hhdr eh hch with ⟨hfh, tok0, hex0, hval⟩
        rw [proxyStep_hit now eh _ _ hfh]
        have : tok0 = tok := (Except.ok.injEq _ _).mp (hex0.symm.trans hex)
        rw [hval, this]

/-- Witness for C5 as amended: with a live ClientSecret entry holding
exactly the secret signed at the current instant (the token and header
hypotheses vacuous), the decorated and undecorated pipelines agree at a
concrete input. -/
theorem C5_caching_transparent_witness :
    (cachedPipeline 0 1200 exIdent "pk" exTransport "org1"
      { secret := some { value := signSecret "pk" exIdent 0 1200
                       , expires_at := 1200 }
      , token := none, headers := none }).result =
      purePipeline 0 1200 exIdent "pk" exTransport "org1" :=
  C5_caching_transparent 0 1200 exIdent "pk" exTransport "org1"
    { secret := some { value := signSecret "pk" exIdent 0 1200
                     , expires_at := 1200 }
    , token := none, headers := none }
    (by intro e he; cases he; exact ⟨by decide, rfl⟩)
    (by intro e he; cases he) (by intro e he; cases he)

end TapASA
